import Mathlib

/-!
Shallow embedding of the ClarityPay credit-scoring pipeline
(src/api/main.py, src/api/database.py, src/monitoring/drift_detection.py).

Python floats are modelled as exact rationals (ℚ); the IEEE values of every
constant appearing in the claims were checked to agree with the exact
rational results at all claim-relevant points.
-/

namespace ClarityPay

/-- Python `int(x)` applied to a float: truncation toward zero. -/
def pyInt (q : ℚ) : ℤ := if 0 ≤ q then ⌊q⌋ else ⌈q⌉

/-- Round to the nearest integer, ties to the even integer
(the tie rule of Python 3 `round`). -/
def roundHalfEven (q : ℚ) : ℤ :=
  if q - ⌊q⌋ < 1/2 then ⌊q⌋
  else if 1/2 < q - ⌊q⌋ then ⌊q⌋ + 1
  else if ⌊q⌋ % 2 = 0 then ⌊q⌋ else ⌊q⌋ + 1

/-- Python `round(x, d)`: round to `d` decimal digits, ties to even. -/
def pyRound (q : ℚ) (d : ℕ) : ℚ :=
  (roundHalfEven (q * (10 : ℚ) ^ d) : ℚ) / (10 : ℚ) ^ d

/-- The request model `CreditApplication` (main.py lines 51-61).
The field named `debt_to_income_ratio` in the source is called
`debt_to_income` here; `age` and the count fields are Python ints (ℤ),
the remaining fields floats (ℚ). -/
structure CreditApplication where
  applicant_id : String
  age : ℤ
  annual_income : ℚ
  debt_to_income : ℚ
  num_credit_lines : ℤ
  num_late_payments : ℤ
  credit_utilization : ℚ
  months_since_last_delinquency : ℤ
  num_credit_inquiries : ℤ
  purchase_amount : ℚ
deriving DecidableEq

/-- main.py line 205: `credit_score = int((1 - default_probability) * 850)`. -/
def creditScore (default_probability : ℚ) : ℤ :=
  pyInt ((1 - default_probability) * 850)

/-- The loan-terms dictionary returned by `calculate_loan_terms`;
keys absent from a branch are `none`. -/
structure LoanTerms where
  approved : Bool
  term_months : Option ℤ
  apr : Option ℚ
  monthly_payment : Option ℚ
  risk_tier : String
  reason : Option String
deriving DecidableEq

/-- main.py lines 79-110: `calculate_loan_terms(credit_score, purchase_amount)`. -/
def calculate_loan_terms (credit_score : ℤ) (purchase_amount : ℚ) : LoanTerms :=
  if 750 ≤ credit_score then
    { approved := true, term_months := some 12, apr := some (899/100)
      monthly_payment := some (pyRound (purchase_amount * (10899/10000) / 12) 2)
      risk_tier := "Prime", reason := none }
  else if 650 ≤ credit_score then
    { approved := true, term_months := some 6, apr := some (1499/100)
      monthly_payment := some (pyRound (purchase_amount * (11499/10000) / 6) 2)
      risk_tier := "Near-Prime", reason := none }
  else if 550 ≤ credit_score then
    { approved := true, term_months := some 4, apr := some (2299/100)
      monthly_payment := some (pyRound (purchase_amount * (12299/10000) / 4) 2)
      risk_tier := "Subprime", reason := none }
  else
    { approved := false, term_months := none, apr := none
      monthly_payment := none, risk_tier := "High Risk"
      reason := some "Credit score below minimum threshold (550)" }

/-- Rank of a risk tier, larger is better; used to state monotonicity. -/
def tierRank (tier : String) : ℕ :=
  if tier = "Prime" then 3
  else if tier = "Near-Prime" then 2
  else if tier = "Subprime" then 1
  else 0

/-- The score the spec's words prescribe: round((1 - p) * 850) to the
nearest integer, clamped to [0, 850]. Stated for comparison with
`creditScore`, which embeds the source. -/
def spec_round_clamp_score (p : ℚ) : ℤ :=
  min 850 (max 0 (round ((1 - p) * 850)))

/-- One explanation entry: factor name, the feature's value, impact label. -/
structure Factor where
  factor : String
  value : ℚ
  impact : String
deriving DecidableEq

/-- main.py lines 112-157: `get_simple_explanation`. The feature values are
read out of the application (the source routes them through the feature
array and `feature_dict`, keyed by the same names); the three rule groups
fire in source order and the list is truncated to 3. -/
def get_simple_explanation (app : CreditApplication) : List Factor :=
  let explanations :=
    (if app.debt_to_income > 1/2 then
      [{ factor := "High debt-to-income ratio", value := app.debt_to_income
         impact := "negative" }]
    else if app.debt_to_income < 3/10 then
      [{ factor := "Low debt-to-income ratio", value := app.debt_to_income
         impact := "positive" }]
    else []) ++
    (if app.num_late_payments > 2 then
      [{ factor := "Multiple late payments", value := (app.num_late_payments : ℚ)
         impact := "negative" }]
    else if app.num_late_payments = 0 then
      [{ factor := "No late payments", value := (app.num_late_payments : ℚ)
         impact := "positive" }]
    else []) ++
    (if app.credit_utilization > 7/10 then
      [{ factor := "High credit utilization", value := app.credit_utilization
         impact := "negative" }]
    else if app.credit_utilization < 3/10 then
      [{ factor := "Low credit utilization", value := app.credit_utilization
         impact := "positive" }]
    else [])
  explanations.take 3

/-- main.py lines 214-219: the confidence label from the probability. -/
def confidenceLabel (default_probability : ℚ) : String :=
  if |default_probability - 1/2| > 3/10 then "HIGH"
  else if |default_probability - 1/2| > 3/20 then "MEDIUM"
  else "LOW"

/-- A stored prediction record (database.py `log_prediction` document),
restricted to the fields the statistics read back. -/
structure Record where
  timestamp : ℕ
  approval_recommendation : String
  credit_score : ℚ
deriving DecidableEq

/-- The Mongo store: `none` models `self.db is None` (no `MONGODB_URI` or
failed connection); `some l` a connected store holding records `l`. -/
abbrev Store := Option (List Record)

/-- The Python-level failure the persistence layer can raise: pymongo's
`Database.__bool__` raises NotImplementedError (Database objects do not
implement truth-value testing), and the code pins pymongo ≥ 3.0 through
the `serverSelectionTimeoutMS` argument at database.py line 22, so every
`if not self.db:` check in database.py raises whenever a store is
connected; only the `self.db is None` path evaluates safely. -/
inductive PyError where
  | notImplementedError : PyError
deriving DecidableEq

/-- database.py lines 34-58: `log_prediction`. With no store connected,
`not self.db` is `not None` and the method returns None at once. With a
connected store, `self.db` is a real pymongo Database and the truth test
at line 42 — outside the try block — raises NotImplementedError, so the
`insert_one` at line 53 and the write-error except branch are never
reached. -/
def log_prediction (db : Store) : Except PyError (Option String) :=
  match db with
  | none => Except.ok none
  | some _ => Except.error PyError.notImplementedError

/-- database.py lines 60-80: `get_recent_predictions(limit)`. With no
store it returns the empty list; with a connected store the truth test at
line 62 raises NotImplementedError, so the find/sort/limit read-back is
unreachable. -/
def get_recent_predictions (db : Store) (_limit : ℕ) :
    Except PyError (List Record) :=
  match db with
  | none => Except.ok []
  | some _ => Except.error PyError.notImplementedError

/-- The dictionary returned by `get_stats`; keys absent from a branch are
`none`. -/
structure StatsResult where
  connected : Bool
  total_predictions : Option ℕ
  approval_rate : Option ℚ
  average_credit_score : Option ℚ
  message : Option String
deriving DecidableEq

/-- database.py lines 82-120: `get_stats`. With no store it returns the
connected-false status object with its message. With a connected store the
truth test at line 84 — before the try block — raises NotImplementedError,
so the zero-record branch (lines 90-96) and the aggregate computation
(lines 98-118) are unreachable dead code. -/
def get_stats (db : Store) : Except PyError StatsResult :=
  match db with
  | none =>
    Except.ok
      { connected := false, total_predictions := none, approval_rate := none
        average_credit_score := none
        message := some "MongoDB not connected" }
  | some _ => Except.error PyError.notImplementedError

/-- The response dictionary built by `predict_credit_risk`
(main.py lines 222-231); `logged_to_mongodb := true` models the presence of
the key added at line 236, `false` its absence. -/
structure PredResult where
  applicant_id : String
  credit_score : ℤ
  default_probability : ℚ
  approval_recommendation : String
  recommended_terms : LoanTerms
  explanation : List Factor
  confidence : String
  model_version : String
  logged_to_mongodb : Bool
deriving DecidableEq

/-- main.py lines 183-241: the `/predict` handler body after the model
call. `p` is the default probability produced by the opaque model artifact
on this application's feature vector. The store write is attempted at line
234; with a connected store `log_prediction` raises (see above) and the
handler's blanket except at line 240 turns the exception into an HTTP 500
error, modelled by the error branch here — so the marker-adding line 236
is reachable only with `doc_id = None`. -/
def predict_credit_risk (app : CreditApplication) (p : ℚ) (db : Store) :
    Except PyError PredResult :=
  let credit_score := creditScore p
  let terms := calculate_loan_terms credit_score app.purchase_amount
  let result : PredResult :=
    { applicant_id := app.applicant_id
      credit_score := credit_score
      default_probability := pyRound p 4
      approval_recommendation := if terms.approved then "APPROVED" else "DECLINED"
      recommended_terms := terms
      explanation := get_simple_explanation app
      confidence := confidenceLabel p
      model_version := "1.0.0"
      logged_to_mongodb := false }
  match log_prediction db with
  | Except.error e => Except.error e
  | Except.ok doc_id =>
    Except.ok
      (if doc_id.isSome then { result with logged_to_mongodb := true }
       else result)

/-- main.py lines 51-61: the pydantic bound of each `CreditApplication`
field, listed in declaration order; a violated bound contributes the field's
name to the error list. -/
def fieldErrors (a : CreditApplication) : List String :=
  (if 18 ≤ a.age ∧ a.age ≤ 100 then [] else ["age"]) ++
  (if 0 ≤ a.annual_income then [] else ["annual_income"]) ++
  (if 0 ≤ a.debt_to_income ∧ a.debt_to_income ≤ 5 then []
   else ["debt_to_income_ratio"]) ++
  (if 0 ≤ a.num_credit_lines then [] else ["num_credit_lines"]) ++
  (if 0 ≤ a.num_late_payments then [] else ["num_late_payments"]) ++
  (if 0 ≤ a.credit_utilization ∧ a.credit_utilization ≤ 2 then []
   else ["credit_utilization"]) ++
  (if 0 ≤ a.months_since_last_delinquency then []
   else ["months_since_last_delinquency"]) ++
  (if 0 ≤ a.num_credit_inquiries then [] else ["num_credit_inquiries"]) ++
  (if 0 ≤ a.purchase_amount then [] else ["purchase_amount"])

/-- Pydantic request validation: the application passes through unchanged
when every field bound holds, otherwise a ValidationError carrying the
offending field names is raised. -/
def validateApplication (a : CreditApplication) :
    Except (List String) CreditApplication :=
  if fieldErrors a = [] then Except.ok a else Except.error (fieldErrors a)

/-- The request boundary: pydantic validation runs before the handler, so
an application with a violated bound is rejected before any scoring
occurs; on a validated application the handler runs, and its own result
may in turn be the HTTP 500 error of `predict_credit_risk`. `proba` is the
opaque model's probability function. -/
def predictEndpoint (proba : CreditApplication → ℚ) (db : Store)
    (a : CreditApplication) :
    Except (List String) (Except PyError PredResult) :=
  match validateApplication a with
  | Except.error e => Except.error e
  | Except.ok v => Except.ok (predict_credit_risk v (proba v) db)

/-- The error type the spec prescribes for malformed drift inputs. -/
inductive DriftError where
  | inputError : DriftError
deriving DecidableEq

/-- drift_detection.py lines 49-54: the summary written by a run. -/
structure DriftSummary where
  drift_detected : Bool
  reference_size : ℕ
  current_size : ℕ
deriving DecidableEq

/-- drift_detection.py lines 7-59: `detect_drift`. The two datasets are the
loaded reference and current frames (rows of feature values); `evidently`
is the opaque external report computation the source delegates to. The
source performs no validation of its own — no emptiness or schema check,
and no `DriftInputError` exists anywhere in the repository — so the
embedding never takes the error branch of its return type. -/
def detect_drift (evidently : List (List ℚ) → List (List ℚ) → Bool)
    (reference_data current_data : List (List ℚ)) :
    Except DriftError DriftSummary :=
  Except.ok
    { drift_detected := evidently reference_data current_data
      reference_size := reference_data.length
      current_size := current_data.length }

/-- The example application of the source's request schema
(main.py lines 63-77). -/
def demoApplication : CreditApplication :=
  { applicant_id := "APP_DEMO_001", age := 35, annual_income := 65000
    debt_to_income := 35/100, num_credit_lines := 5, num_late_payments := 1
    credit_utilization := 45/100, months_since_last_delinquency := 24
    num_credit_inquiries := 2, purchase_amount := 3500 }

/-- C1 counterexample: at probability 0.0001 the code's score,
`int((1 - p) * 850)` = 849, differs from the spec's
round-to-nearest-and-clamp value 850: the source truncates instead of
rounding. -/
theorem creditScore_truncates_not_rounds :
    creditScore (1/10000) = 849 ∧ spec_round_clamp_score (1/10000) = 850 ∧
    (849 : ℤ) ≠ 850 := by
  refine ⟨?_, ?_, by decide⟩
  · norm_num [creditScore, pyInt]
  · norm_num [spec_round_clamp_score, round_eq]

/-- C1 (amended): for every probability p in [0,1] the score equals the
floor (truncation) of (1 - p) * 850, and it lies in [0, 850] without any
explicit clamping. -/
theorem creditScore_floor_formula_bounds (p : ℚ) (h0 : 0 ≤ p) (h1 : p ≤ 1) :
    creditScore p = ⌊(1 - p) * 850⌋ ∧
    0 ≤ creditScore p ∧ creditScore p ≤ 850 := by
  have hnn : (0 : ℚ) ≤ (1 - p) * 850 := by nlinarith
  have hfl : creditScore p = ⌊(1 - p) * 850⌋ := by
    simp [creditScore, pyInt, hnn]
  refine ⟨hfl, ?_, ?_⟩
  · rw [hfl]
    exact Int.floor_nonneg.mpr hnn
  · rw [hfl]
    have hle : (1 - p) * 850 ≤ (850 : ℚ) := by nlinarith
    calc ⌊(1 - p) * 850⌋ ≤ ⌊(850 : ℚ)⌋ := Int.floor_le_floor hle
      _ = 850 := by norm_num

/-- Witness for `creditScore_floor_formula_bounds` at p = 0.1059. -/
theorem creditScore_floor_formula_bounds_witness :
    creditScore (1059/10000) = ⌊((1 : ℚ) - 1059/10000) * 850⌋ ∧
    0 ≤ creditScore (1059/10000) ∧ creditScore (1059/10000) ≤ 850 :=
  creditScore_floor_formula_bounds (1059/10000) (by norm_num) (by norm_num)

/-- C2 counterexample: for probability 0.1059 the pipeline's credit score is
not 760 as the spec's worked example states; (1 - 0.1059) * 850 = 759.985
and `int` truncates it to 759. -/
theorem example_probability_score_not_760 :
    (∃ r : PredResult,
      predict_credit_risk demoApplication (1059/10000) none = Except.ok r ∧
      r.credit_score = 759) ∧ (759 : ℤ) ≠ 760 := by
  refine ⟨⟨_, rfl, ?_⟩, by decide⟩
  show creditScore (1059/10000) = 759
  norm_num [creditScore, pyInt]

/-- C2 (amended): for probability 0.1059 and purchase amount 3500 the
pipeline produces credit score 759 (not 760), tier Prime with term 12
months and APR 8.99, and monthly payment 317.89. -/
theorem example_probability_pipeline_values :
    ∃ r : PredResult,
      predict_credit_risk demoApplication (1059/10000) none = Except.ok r ∧
      r.credit_score = 759 ∧
      r.recommended_terms =
        { approved := true, term_months := some 12, apr := some (899/100)
          monthly_payment := some (31789/100), risk_tier := "Prime"
          reason := none } := by
  refine ⟨_, rfl, ?_, ?_⟩
  · show creditScore (1059/10000) = 759
    norm_num [creditScore, pyInt]
  · show calculate_loan_terms (creditScore (1059/10000))
      demoApplication.purchase_amount = _
    norm_num [creditScore, pyInt, demoApplication, calculate_loan_terms,
      pyRound, roundHalfEven]

/-- Projection of `calculate_loan_terms` on the tier label. -/
theorem clt_risk_tier (s : ℤ) (a : ℚ) :
    (calculate_loan_terms s a).risk_tier =
      if 750 ≤ s then "Prime" else if 650 ≤ s then "Near-Prime"
      else if 550 ≤ s then "Subprime" else "High Risk" := by
  unfold calculate_loan_terms
  split_ifs <;> rfl

/-- Projection of `calculate_loan_terms` on the approval flag. -/
theorem clt_approved (s : ℤ) (a : ℚ) :
    (calculate_loan_terms s a).approved =
      if 550 ≤ s then true else false := by
  unfold calculate_loan_terms
  split_ifs <;> first | rfl | omega

/-- Projection of `calculate_loan_terms` on the term length. -/
theorem clt_term_months (s : ℤ) (a : ℚ) :
    (calculate_loan_terms s a).term_months =
      if 750 ≤ s then some 12 else if 650 ≤ s then some 6
      else if 550 ≤ s then some 4 else none := by
  unfold calculate_loan_terms
  split_ifs <;> rfl

/-- Projection of `calculate_loan_terms` on the APR. -/
theorem clt_apr (s : ℤ) (a : ℚ) :
    (calculate_loan_terms s a).apr =
      if 750 ≤ s then some ((899 : ℚ)/100)
      else if 650 ≤ s then some ((1499 : ℚ)/100)
      else if 550 ≤ s then some ((2299 : ℚ)/100) else none := by
  unfold calculate_loan_terms
  split_ifs <;> rfl

/-- Projection of `calculate_loan_terms` on the decline reason. -/
theorem clt_reason (s : ℤ) (a : ℚ) :
    (calculate_loan_terms s a).reason =
      if 550 ≤ s then none
      else some "Credit score below minimum threshold (550)" := by
  unfold calculate_loan_terms
  split_ifs <;> first | rfl | omega

/-- Rank of the tier assigned by `calculate_loan_terms`. -/
theorem clt_tierRank (s : ℤ) (a : ℚ) :
    tierRank (calculate_loan_terms s a).risk_tier =
      if 750 ≤ s then 3 else if 650 ≤ s then 2
      else if 550 ≤ s then 1 else 0 := by
  rw [clt_risk_tier]
  split_ifs <;> simp [tierRank]

/-- C3: tier assignment is a total, non-overlapping partition of [0, 850]:
each score gets exactly the tier of its band (the four iffs are mutually
exclusive and exhaustive), and each band carries the stated terms: Prime
term 12 / APR 8.99, Near-Prime term 6 / APR 14.99, Subprime term 4 /
APR 22.99, and High Risk is declined with the threshold message. -/
theorem calculate_loan_terms_partition (s : ℤ) (hs0 : 0 ≤ s) (hs1 : s ≤ 850)
    (a : ℚ) :
    (((calculate_loan_terms s a).risk_tier = "Prime" ↔ 750 ≤ s) ∧
     ((calculate_loan_terms s a).risk_tier = "Near-Prime" ↔
        650 ≤ s ∧ s < 750) ∧
     ((calculate_loan_terms s a).risk_tier = "Subprime" ↔
        550 ≤ s ∧ s < 650) ∧
     ((calculate_loan_terms s a).risk_tier = "High Risk" ↔ s < 550)) ∧
    (750 ≤ s → (calculate_loan_terms s a).term_months = some 12 ∧
      (calculate_loan_terms s a).apr = some (899/100) ∧
      (calculate_loan_terms s a).approved = true) ∧
    (650 ≤ s ∧ s < 750 → (calculate_loan_terms s a).term_months = some 6 ∧
      (calculate_loan_terms s a).apr = some (1499/100) ∧
      (calculate_loan_terms s a).approved = true) ∧
    (550 ≤ s ∧ s < 650 → (calculate_loan_terms s a).term_months = some 4 ∧
      (calculate_loan_terms s a).apr = some (2299/100) ∧
      (calculate_loan_terms s a).approved = true) ∧
    (s < 550 → (calculate_loan_terms s a).approved = false ∧
      (calculate_loan_terms s a).reason =
        some "Credit score below minimum threshold (550)") := by
  simp only [clt_risk_tier, clt_approved, clt_term_months, clt_apr,
    clt_reason]
  split_ifs <;> simp_all <;> omega

/-- Witness for `calculate_loan_terms_partition` at score 759. -/
theorem calculate_loan_terms_partition_witness :
    ((calculate_loan_terms 759 3500).risk_tier = "Prime" ↔ (750 : ℤ) ≤ 759) ∧
    (calculate_loan_terms 759 3500).term_months = some 12 ∧
    (calculate_loan_terms 759 3500).apr = some (899/100) ∧
    (calculate_loan_terms 759 3500).approved = true := by
  have h := calculate_loan_terms_partition 759 (by decide) (by decide) 3500
  exact ⟨h.1.1, h.2.1 (by decide)⟩

/-- C4: the score is non-increasing in the default probability on [0,1];
for a fixed purchase amount a higher score never yields a worse tier
(`tierRank` is monotone) nor a higher APR, and approval is determined by
the score alone: approved exactly when the score is at least 550. -/
theorem score_tier_monotonicity :
    (∀ p1 p2 : ℚ, 0 ≤ p1 → p1 ≤ p2 → p2 ≤ 1 →
      creditScore p2 ≤ creditScore p1) ∧
    (∀ s1 s2 : ℤ, ∀ a : ℚ, s1 ≤ s2 →
      tierRank (calculate_loan_terms s1 a).risk_tier ≤
        tierRank (calculate_loan_terms s2 a).risk_tier) ∧
    (∀ s1 s2 : ℤ, ∀ a : ℚ, ∀ x y : ℚ, s1 ≤ s2 →
      (calculate_loan_terms s1 a).apr = some x →
      (calculate_loan_terms s2 a).apr = some y → y ≤ x) ∧
    (∀ s : ℤ, ∀ a : ℚ, (calculate_loan_terms s a).approved = true ↔
      550 ≤ s) := by
  refine ⟨?_, ?_, ?_, ?_⟩
  · intro p1 p2 h0 h12 h21
    have hq : (1 - p2) * 850 ≤ (1 - p1) * 850 := by nlinarith
    have hnn2 : (0 : ℚ) ≤ (1 - p2) * 850 := by nlinarith
    have hnn1 : (0 : ℚ) ≤ (1 - p1) * 850 := le_trans hnn2 hq
    simp only [creditScore, pyInt, hnn1, hnn2, if_pos]
    exact Int.floor_le_floor hq
  · intro s1 s2 a h
    rw [clt_tierRank, clt_tierRank]
    split_ifs <;> omega
  · intro s1 s2 a x y h hx hy
    rw [clt_apr] at hx hy
    split_ifs at hx hy <;> simp_all <;>
      first | omega | (rw [← hx, ← hy]; norm_num)
  · intro s a
    rw [clt_approved]
    split_ifs <;> simp_all

/-- Witness for `score_tier_monotonicity` at p1 = 0.1, p2 = 0.2,
scores 600 ≤ 700, purchase amount 3500. -/
theorem score_tier_monotonicity_witness :
    creditScore (2/10) ≤ creditScore (1/10) ∧
    tierRank (calculate_loan_terms 600 3500).risk_tier ≤
      tierRank (calculate_loan_terms 700 3500).risk_tier ∧
    ((calculate_loan_terms 600 3500).approved = true ↔ (550 : ℤ) ≤ 600) := by
  have h := score_tier_monotonicity
  exact ⟨h.1 (1/10) (2/10) (by norm_num) (by norm_num) (by norm_num),
    h.2.1 600 700 3500 (by decide), h.2.2.2 600 3500⟩

/-- C5: the drift detector performs no input validation at all: on every
pair of datasets — the empty ones included — it completes with an ok
summary taken from the external report computation, and so never fails
with the DriftInputError the spec prescribes. -/
theorem detect_drift_no_input_validation :
    ∀ (evidently : List (List ℚ) → List (List ℚ) → Bool)
      (reference_data current_data : List (List ℚ)),
      ∃ s : DriftSummary,
        detect_drift evidently reference_data current_data = Except.ok s ∧
        s.drift_detected = evidently reference_data current_data ∧
        s.reference_size = reference_data.length ∧
        s.current_size = current_data.length :=
  fun _ _ _ => ⟨_, rfl, rfl, rfl, rfl⟩

/-- C6: the best-effort record contract is broken by the code. With a
connected store, record does not return a "not recorded" None: the truth
test at database.py line 42 raises NotImplementedError, and `predict`
fails with an HTTP 500 instead of completing with a Decision — so there is
no record-failure path that leaves the caller's Decision intact, except the
no-store path, on which record returns None and predict does complete. -/
theorem predict_connected_store_fails :
    log_prediction (some []) = Except.error PyError.notImplementedError ∧
    predict_credit_risk demoApplication (1059/10000) (some []) =
      Except.error PyError.notImplementedError ∧
    log_prediction none = Except.ok none ∧
    (∃ r : PredResult,
      predict_credit_risk demoApplication (1059/10000) none =
        Except.ok r) :=
  ⟨rfl, rfl, rfl, ⟨_, rfl⟩⟩

/-- C9: on a connected store holding zero records, `get_stats` does not
return the empty-state result the spec requires: the truth test at
database.py line 84 raises NotImplementedError before the zero-record
branch is ever reached, so stats on an empty store fails with an error. -/
theorem get_stats_empty_store_raises :
    get_stats (some []) = Except.error PyError.notImplementedError := rfl

/-- C10: with no store connected (db is None), every Decision Recorder
operation returns its defined fallback instead of raising:
`log_prediction` None, `get_recent_predictions` the empty list, and
`get_stats` a status object with connected = false and an explanatory
message. -/
theorem logger_no_store_fallbacks :
    ∀ limit : ℕ,
      log_prediction none = Except.ok none ∧
      get_recent_predictions none limit = Except.ok [] ∧
      get_stats none = Except.ok
        { connected := false, total_predictions := none
          approval_rate := none, average_credit_score := none
          message := some "MongoDB not connected" } :=
  fun _ => ⟨rfl, rfl, rfl⟩

/-- A single-field bound check contributes nothing to the error list
exactly when the bound holds. -/
theorem ite_nil_iff {c : Prop} [Decidable c] (s : String) :
    ((if c then ([] : List String) else [s]) = []) ↔ c := by
  split_ifs with h <;> simp [h]

/-- The error list is empty exactly when every field bound holds. -/
theorem fieldErrors_nil_iff (a : CreditApplication) :
    fieldErrors a = [] ↔
      (18 ≤ a.age ∧ a.age ≤ 100 ∧ 0 ≤ a.annual_income ∧
       0 ≤ a.debt_to_income ∧ a.debt_to_income ≤ 5 ∧
       0 ≤ a.num_credit_lines ∧ 0 ≤ a.num_late_payments ∧
       0 ≤ a.credit_utilization ∧ a.credit_utilization ≤ 2 ∧
       0 ≤ a.months_since_last_delinquency ∧
       0 ≤ a.num_credit_inquiries ∧ 0 ≤ a.purchase_amount) := by
  simp only [fieldErrors, List.append_eq_nil, ite_nil_iff]
  tauto

/-- C7: an application is accepted exactly when every field lies within its
inclusive declared bound; on any violation the ValidationError names the
offending field — an out-of-range age contributes "age" — and the request
is rejected at the endpoint before any scoring occurs. -/
theorem validateApplication_bounds_characterisation (a : CreditApplication) :
    ((validateApplication a = Except.ok a) ↔
      (18 ≤ a.age ∧ a.age ≤ 100 ∧ 0 ≤ a.annual_income ∧
       0 ≤ a.debt_to_income ∧ a.debt_to_income ≤ 5 ∧
       0 ≤ a.num_credit_lines ∧ 0 ≤ a.num_late_payments ∧
       0 ≤ a.credit_utilization ∧ a.credit_utilization ≤ 2 ∧
       0 ≤ a.months_since_last_delinquency ∧
       0 ≤ a.num_credit_inquiries ∧ 0 ≤ a.purchase_amount)) ∧
    ((a.age < 18 ∨ 100 < a.age) → "age" ∈ fieldErrors a) ∧
    (∀ (proba : CreditApplication → ℚ) (db : Store),
      fieldErrors a ≠ [] →
      predictEndpoint proba db a = Except.error (fieldErrors a)) := by
  refine ⟨?_, ?_, ?_⟩
  · constructor
    · intro h'
      by_cases h : fieldErrors a = []
      · exact (fieldErrors_nil_iff a).mp h
      · simp [validateApplication, h] at h'
    · intro hb
      have h : fieldErrors a = [] := (fieldErrors_nil_iff a).mpr hb
      simp [validateApplication, h]
  · intro hage
    have hc : ¬(18 ≤ a.age ∧ a.age ≤ 100) := by omega
    simp [fieldErrors, hc]
  · intro proba db hne
    simp [predictEndpoint, validateApplication, hne]

/-- Witness for `validateApplication_bounds_characterisation`: age 17 and
age 101 are rejected with "age" among the reported fields, while age 18
and age 100 (with the other demo fields, all in range) pass. -/
theorem validateApplication_bounds_witness :
    "age" ∈ fieldErrors { demoApplication with age := 17 } ∧
    "age" ∈ fieldErrors { demoApplication with age := 101 } ∧
    validateApplication { demoApplication with age := 18 } =
      Except.ok { demoApplication with age := 18 } ∧
    validateApplication { demoApplication with age := 100 } =
      Except.ok { demoApplication with age := 100 } := by
  refine ⟨?_, ?_, ?_, ?_⟩
  · exact (validateApplication_bounds_characterisation
      { demoApplication with age := 17 }).2.1 (Or.inl (by norm_num))
  · exact (validateApplication_bounds_characterisation
      { demoApplication with age := 101 }).2.1 (Or.inr (by norm_num))
  · exact (validateApplication_bounds_characterisation
      { demoApplication with age := 18 }).1.mpr
      (by norm_num [demoApplication])
  · exact (validateApplication_bounds_characterisation
      { demoApplication with age := 100 }).1.mpr
      (by norm_num [demoApplication])

/-- Each two-rule group of the explanation ranker is a sublist of its two
possible factors in order. -/
theorem ite_pair_sublist {c1 c2 : Prop} [Decidable c1] [Decidable c2]
    (x y : Factor) :
    List.Sublist (if c1 then [x] else if c2 then [y] else []) [x, y] := by
  split_ifs <;> simp

/-- Each two-rule group of the explanation ranker yields no factor exactly
when neither rule fires. -/
theorem ite_pair_nil_iff {c1 c2 : Prop} [Decidable c1] [Decidable c2]
    (x y : Factor) :
    ((if c1 then [x] else if c2 then [y] else []) = []) ↔ (¬c1 ∧ ¬c2) := by
  split_ifs <;> simp_all

/-- C8: for every validated feature vector the explanation has at most 3
factors; it is empty exactly when no rule threshold is crossed (the
debt-to-income ratio within [0.3, 0.5], the late-payment count 1 or 2, the
credit utilization within [0.3, 0.7]); the triggered rules appear in the
fixed priority order debt-to-income, late payments, credit utilization
(the list is a sublist of the six possible factors in that order, each
carrying its input value); and every factor bears a negative or positive
impact label. -/
theorem get_simple_explanation_contract (app : CreditApplication)
    (h0 : 0 ≤ app.num_late_payments) :
    (get_simple_explanation app).length ≤ 3 ∧
    (get_simple_explanation app = [] ↔
      (3/10 ≤ app.debt_to_income ∧ app.debt_to_income ≤ 1/2 ∧
       (app.num_late_payments = 1 ∨ app.num_late_payments = 2) ∧
       3/10 ≤ app.credit_utilization ∧ app.credit_utilization ≤ 7/10)) ∧
    List.Sublist (get_simple_explanation app)
      [{ factor := "High debt-to-income ratio", value := app.debt_to_income
         impact := "negative" },
       { factor := "Low debt-to-income ratio", value := app.debt_to_income
         impact := "positive" },
       { factor := "Multiple late payments"
         value := (app.num_late_payments : ℚ), impact := "negative" },
       { factor := "No late payments", value := (app.num_late_payments : ℚ)
         impact := "positive" },
       { factor := "High credit utilization", value := app.credit_utilization
         impact := "negative" },
       { factor := "Low credit utilization", value := app.credit_utilization
         impact := "positive" }] ∧
    (∀ f ∈ get_simple_explanation app,
      f.impact = "negative" ∨ f.impact = "positive") := by
  have hsub : List.Sublist (get_simple_explanation app)
      [{ factor := "High debt-to-income ratio", value := app.debt_to_income
         impact := "negative" },
       { factor := "Low debt-to-income ratio", value := app.debt_to_income
         impact := "positive" },
       { factor := "Multiple late payments"
         value := (app.num_late_payments : ℚ), impact := "negative" },
       { factor := "No late payments", value := (app.num_late_payments : ℚ)
         impact := "positive" },
       { factor := "High credit utilization", value := app.credit_utilization
         impact := "negative" },
       { factor := "Low credit utilization", value := app.credit_utilization
         impact := "positive" }] := by
    refine List.Sublist.trans (List.take_sublist _ _) ?_
    simpa using (ite_pair_sublist _ _).append
      ((ite_pair_sublist _ _).append (ite_pair_sublist _ _))
  refine ⟨List.length_take_le _ _, ?_, hsub, ?_⟩
  · simp only [get_simple_explanation, List.take_eq_nil_iff,
      List.append_eq_nil, ite_pair_nil_iff, not_lt]
    constructor
    · rintro (h | ⟨⟨⟨h1, h2⟩, h3, h4⟩, h5, h6⟩)
      · omega
      · exact ⟨h2, h1, by omega, h6, h5⟩
    · rintro ⟨h1, h2, h3, h4, h5⟩
      exact Or.inr ⟨⟨⟨h2, h1⟩, by omega, by omega⟩, h5, h4⟩
  · intro f hf
    have hmem := hsub.subset hf
    fin_cases hmem <;> simp

/-- Witness for `get_simple_explanation_contract` at the demo application:
all three features sit inside their bands, so the explanation is empty. -/
theorem get_simple_explanation_contract_witness :
    get_simple_explanation demoApplication = [] := by
  exact (get_simple_explanation_contract demoApplication
    (by norm_num [demoApplication])).2.1.mpr (by norm_num [demoApplication])

end ClarityPay
